import Mathlib

/-!
Shallow embedding of the second-stage UEFI loader `Uefi2.c`
(QualgoChainPkg/Applications/Uefi2).  External runtime services
(boot services, file protocol, image services) are modelled as
explicit parameters; machine integers are `Nat` with explicit
`% 2 ^ w` where overflow matters.
-/

namespace Uefi2

/-- EFI status codes used by the loader.  Every code other than
`Success` has the error bit set in the C sources, so `EFI_ERROR`
holds exactly for the non-`Success` constructors. -/
inductive EfiStatus where
  | Success
  | InvalidParameter
  | NotFound
  | BufferTooSmall
  | OutOfResources
  | DeviceError
  | LoadError
  | Aborted
  | Unsupported
  deriving DecidableEq, Repr

/-- `EFI_ERROR(Status)`: true for every modelled status except `EFI_SUCCESS`. -/
def EFI_ERROR : EfiStatus → Bool
  | .Success => false
  | _ => true

/-- `CopyMem(dst, src, n)`: the first `n` bytes of `dst` are replaced by the
first `n` bytes of `src`; the rest of `dst` is untouched. -/
def CopyMem (dst src : List Nat) (n : Nat) : List Nat :=
  src.take n ++ dst.drop n

/-- Context for the `EFI_LOAD_FILE2` initrd provider (`INITRD_LOADFILE2_CTX`):
`InitrdBuffer` is the loaded ramdisk bytes (`none` models a NULL pointer) and
`InitrdSize` the stored size. -/
structure INITRD_LOADFILE2_CTX where
  InitrdBuffer : Option (List Nat)
  InitrdSize : Nat
  deriving DecidableEq, Repr

/-- Result of one `InitrdLoadFile` query: the returned status, the value of
`*BufferSize` after the call (`none` models a NULL `BufferSize` pointer) and
the contents of the caller's data buffer after the call (`none` models a NULL
`Buffer` pointer). -/
structure LoadFile2Result where
  status : EfiStatus
  bufferSize : Option Nat
  buffer : Option (List Nat)
  deriving DecidableEq, Repr

/-- `InitrdLoadFile` (Uefi2.c lines 115-143): the LoadFile2 callback the Linux
EFI stub calls to receive the initrd.  `bufferSize` is the value behind the
caller's `BufferSize` pointer (`none` = NULL pointer), `buffer` the caller's
data buffer contents (`none` = NULL pointer).  The C callback never writes the
context, which the embedding reflects by taking `ctx` as a read-only input. -/
def InitrdLoadFile (ctx : INITRD_LOADFILE2_CTX)
    (bufferSize : Option Nat) (buffer : Option (List Nat)) : LoadFile2Result :=
  match bufferSize with
  | none => { status := .InvalidParameter, bufferSize := none, buffer := buffer }
  | some sz =>
    match ctx.InitrdBuffer with
    | none => { status := .NotFound, bufferSize := some sz, buffer := buffer }
    | some src =>
      if ctx.InitrdSize = 0 then
        { status := .NotFound, bufferSize := some sz, buffer := buffer }
      else
        match buffer with
        | none =>
          { status := .BufferTooSmall, bufferSize := some ctx.InitrdSize, buffer := none }
        | some b =>
          if sz < ctx.InitrdSize then
            { status := .BufferTooSmall, bufferSize := some ctx.InitrdSize, buffer := some b }
          else
            { status := .Success, bufferSize := some ctx.InitrdSize,
              buffer := some (CopyMem b src ctx.InitrdSize) }

/-! Boot policy selector (`IsNetworkBoot`, Uefi2.c lines 322-346, and the
policy selection in `UefiMain`, lines 500-504). -/

/-- `sizeof(CHAR16)` in bytes. -/
def sizeofCHAR16 : Nat := 2

/-- `startsW pat s`: `pat` is an initial segment of `s` (character-exact). -/
def startsW : List Char → List Char → Bool
  | [], _ => true
  | _ :: _, [] => false
  | p :: ps, c :: cs => p == c && startsW ps cs

/-- `StrStr(s, pat) != NULL`: `pat` occurs as a contiguous substring of `s`
(an empty `pat` is found in every string, matching EDK2's `StrStr`). -/
def strStrFound (pat : List Char) : List Char → Bool
  | [] => pat.isEmpty
  | c :: cs => startsW pat (c :: cs) || strStrFound pat cs

/-- The `BOOT=PXE` marker (`BOOTOPT_PXE`). -/
def BOOTOPT_PXE : List Char := "BOOT=PXE".data

/-- `IsNetworkBoot` (Uefi2.c lines 322-346).  `liOk` models whether
`HandleProtocol(LoadedImage)` succeeds with a non-null protocol;
`loadOptions` is the option string behind `Li->LoadOptions` (`none` = NULL)
and `loadOptionsSize` the byte count `Li->LoadOptionsSize`. -/
def IsNetworkBoot (liOk : Bool) (loadOptions : Option (List Char))
    (loadOptionsSize : Nat) : Bool :=
  if liOk = false then false
  else
    match loadOptions with
    | none => false
    | some opts =>
      if loadOptionsSize < sizeofCHAR16 then false
      else strStrFound BOOTOPT_PXE opts

/-- `NFS_SERVER_IP` literal. -/
def NFS_SERVER_IP : String := "192.168.42.1"

/-- `NFS_ROOT_EXPORT` literal. -/
def NFS_ROOT_EXPORT : String := "/volume1/nfs_root"

/-- Local-root command line (`KernelCmdline`, Uefi2.c lines 85-91). -/
def KernelCmdline : String :=
  "root=/dev/nvme0n1p1 rw rootwait rootdelay=10 rootfstype=ext4 " ++
  "mminit_loglevel=4 " ++
  "console=ttyTCU0,115200 " ++
  "firmware_class.path=/etc/firmware " ++
  "fbcon=map:0 net.ifnames=0 nospectre_bhb " ++
  "video=efifb:off console=tty0"

/-- NFS-root command line (`KernelCmdlineNfs`, Uefi2.c lines 94-101). -/
def KernelCmdlineNfs : String :=
  "ip=dhcp " ++
  "root=/dev/nfs rw " ++
  "nfsroot=" ++ NFS_SERVER_IP ++ ":" ++ NFS_ROOT_EXPORT ++ ",vers=4,tcp " ++
  "console=ttyTCU0,115200n8 console=tty0 " ++
  "firmware_class.path=/etc/firmware " ++
  "net.ifnames=0 " ++
  "loglevel=7"

/-- Byte count of a null-terminated UCS-2 option string handed over in
`LoadOptionsSize` (0 when no options are passed at all). -/
def loadOptionsSizeOf : Option (List Char) → Nat
  | none => 0
  | some s => sizeofCHAR16 * (s.length + 1)

/-- The policy selection of `UefiMain` (Uefi2.c lines 500-504): from the
network-boot decision derive the command line and `UseInitrd`. -/
def UefiMainPolicy (liOk : Bool) (loadOptions : Option (List Char))
    (loadOptionsSize : Nat) : String × Bool :=
  let netBoot := IsNetworkBoot liOk loadOptions loadOptionsSize
  (if netBoot then KernelCmdlineNfs else KernelCmdline,
   if netBoot then false else true)

/-! Memory image descriptor builder (Uefi2.c lines 427-445). -/

/-- `HARDWARE_DEVICE_PATH` node type. -/
def HARDWARE_DEVICE_PATH : Nat := 1

/-- `HW_MEMMAP_DP` node subtype. -/
def HW_MEMMAP_DP : Nat := 3

/-- `END_DEVICE_PATH_TYPE` node type. -/
def END_DEVICE_PATH_TYPE : Nat := 0x7F

/-- `END_ENTIRE_DEVICE_PATH_SUBTYPE` node subtype. -/
def END_ENTIRE_DEVICE_PATH_SUBTYPE : Nat := 0xFF

/-- `EfiLoaderData` memory type code. -/
def EfiLoaderData : Nat := 2

/-- `sizeof(EFI_DEVICE_PATH_PROTOCOL)`: Type (1) + SubType (1) + Length (2). -/
def sizeofEFI_DEVICE_PATH_PROTOCOL : Nat := 4

/-- `sizeof(MEMMAP_DEVICE_PATH)`: 4-byte header + `UINT32 MemoryType` +
two `UINT64` addresses. -/
def sizeofMEMMAP_DEVICE_PATH : Nat := 24

/-- `2 ^ 64`, the modulus of `UINTN`/`UINT64`/`EFI_PHYSICAL_ADDRESS`
arithmetic on this 64-bit target. -/
def UINT64_MOD : Nat := 2 ^ 64

/-- A generic device-path node header (`EFI_DEVICE_PATH_PROTOCOL`):
Type, SubType and the two bytes of the little-endian 16-bit Length. -/
structure DevicePathHeader where
  dpType : Nat
  dpSubType : Nat
  length0 : Nat
  length1 : Nat
  deriving DecidableEq, Repr

/-- `MEMMAP_DEVICE_PATH`: header, memory type, and the 64-bit starting and
ending physical addresses. -/
structure MEMMAP_DEVICE_PATH where
  Header : DevicePathHeader
  MemoryType : Nat
  StartingAddress : Nat
  EndingAddress : Nat
  deriving DecidableEq, Repr

/-- `MEMMAP_DEVICE_PATH_WITH_END`: the memory-range record immediately
followed by the end-of-device-path record. -/
structure MEMMAP_DEVICE_PATH_WITH_END where
  MemMap : MEMMAP_DEVICE_PATH
  EndNode : DevicePathHeader
  deriving DecidableEq, Repr

/-- Construction of `KernelDp` (Uefi2.c lines 427-445) for a kernel buffer at
address `kernelBuffer` with `kernelSize` bytes.  `EndingAddress` is computed
as `StartingAddress + (KernelSize - 1)` in 64-bit unsigned arithmetic, so the
`- 1` wraps when `kernelSize = 0`, exactly as the C `UINTN` subtraction does. -/
def buildKernelDp (kernelBuffer kernelSize : Nat) : MEMMAP_DEVICE_PATH_WITH_END :=
  let start := kernelBuffer % UINT64_MOD
  let size := kernelSize % UINT64_MOD
  let memMapLength := sizeofMEMMAP_DEVICE_PATH % 2 ^ 16
  { MemMap :=
      { Header :=
          { dpType := HARDWARE_DEVICE_PATH
            dpSubType := HW_MEMMAP_DP
            length0 := memMapLength % 256
            length1 := memMapLength / 256 % 256 }
        MemoryType := EfiLoaderData
        StartingAddress := start
        EndingAddress := (start + (size + UINT64_MOD - 1) % UINT64_MOD) % UINT64_MOD }
    EndNode :=
      { dpType := END_DEVICE_PATH_TYPE
        dpSubType := END_ENTIRE_DEVICE_PATH_SUBTYPE
        length0 := sizeofEFI_DEVICE_PATH_PROTOCOL % 256
        length1 := 0 } }

/-! Boot volume locator (`FindBootFileSystem`, Uefi2.c lines 231-320). -/

/-- One SimpleFS-capable handle as the locator observes it: whether
`HandleProtocol(SimpleFS)` yields a usable protocol, whether `OpenVolume`
succeeds, and whether opening `\boot\Image` on the volume root succeeds. -/
structure FsHandle where
  sfspOk : Bool
  openVolumeOk : Bool
  hasKernel : Bool
  deriving DecidableEq, Repr

/-- Outcome of `FindBootFileSystem` over a handle list: the returned status,
the index of the root handed back open (if any), and the event lists of root
handles opened / closed and kernel-path probe file handles opened / closed,
each recorded by handle index. -/
structure FindOutcome where
  status : EfiStatus
  rootOut : Option Nat
  rootsOpened : List Nat
  rootsClosed : List Nat
  probesOpened : List Nat
  probesClosed : List Nat
  deriving DecidableEq, Repr

/-- The probing loop of `FindBootFileSystem` (Uefi2.c lines 263-319),
starting at handle index `i`.  A handle whose SimpleFS protocol or
`OpenVolume` fails is skipped; a root whose kernel-path probe succeeds is
returned open after the probe handle is closed; a rejected root is closed
before moving on; an exhausted list yields `EFI_NOT_FOUND`. -/
def findLoop : List FsHandle → Nat → FindOutcome
  | [], _ =>
    { status := .NotFound, rootOut := none,
      rootsOpened := [], rootsClosed := [], probesOpened := [], probesClosed := [] }
  | h :: rest, i =>
    if h.sfspOk = false then findLoop rest (i + 1)
    else if h.openVolumeOk = false then findLoop rest (i + 1)
    else if h.hasKernel then
      { status := .Success, rootOut := some i,
        rootsOpened := [i], rootsClosed := [], probesOpened := [i], probesClosed := [i] }
    else
      let r := findLoop rest (i + 1)
      { status := r.status, rootOut := r.rootOut,
        rootsOpened := i :: r.rootsOpened, rootsClosed := i :: r.rootsClosed,
        probesOpened := r.probesOpened, probesClosed := r.probesClosed }

/-- `FindBootFileSystem` (Uefi2.c lines 231-320) over an enumerated handle
list (the `LocateHandleBuffer` call has succeeded and produced `handles`). -/
def FindBootFileSystem (handles : List FsHandle) : FindOutcome :=
  findLoop handles 0

/-- A handle the locator accepts: SimpleFS protocol usable, volume opens,
and the kernel-path probe succeeds. -/
def probeOk (h : FsHandle) : Bool :=
  h.sfspOk && h.openVolumeOk && h.hasKernel

/-- Indices (offset by `i`) of the handles whose root gets opened during
probing: those with a usable SimpleFS protocol and a successful `OpenVolume`. -/
def openedRootsFrom : List FsHandle → Nat → List Nat
  | [], _ => []
  | h :: rest, i =>
    if h.sfspOk && h.openVolumeOk then i :: openedRootsFrom rest (i + 1)
    else openedRootsFrom rest (i + 1)

/-! Buffer loader (`LoadFileToBuffer`, Uefi2.c lines 148-225). -/

/-- The file behind the requested path as the loader's runtime delivers it:
its bytes (`GetInfo` reports `content.length` as `FileSize`; a completed
`Read` of the whole file delivers exactly these bytes) and the status the
`Read` call returns. -/
structure FileModel where
  content : List Nat
  readStatus : EfiStatus
  deriving DecidableEq, Repr

/-- Outcomes of the external calls one `LoadFileToBuffer` run makes:
`Root->Open`, the sizing `GetInfo`, the `FileInfo` pool allocation, the
filling `GetInfo`, the file-buffer pool allocation, and the file itself. -/
structure LoadFileEnv where
  openStatus : EfiStatus
  getInfoSizeStatus : EfiStatus
  allocInfoOk : Bool
  getInfoStatus : EfiStatus
  allocBufOk : Bool
  file : FileModel
  deriving DecidableEq, Repr

/-- Result of `LoadFileToBuffer`: status, `*Buffer` (`none` = NULL) and
`*BufferSize` after the call. -/
structure LoadResult where
  status : EfiStatus
  buffer : Option (List Nat)
  bufferSize : Nat
  deriving DecidableEq, Repr

/-- `LoadFileToBuffer` (Uefi2.c lines 148-225).  The sizing `GetInfo` must
answer `EFI_BUFFER_TOO_SMALL`; pool allocation failures return
`EFI_OUT_OF_RESOURCES` (note the C code has already stored `FileSize` into
`*BufferSize` when the file-buffer allocation fails); a failing `Read` frees
the buffer and resets both outputs before propagating the read status. -/
def LoadFileToBuffer (env : LoadFileEnv) : LoadResult :=
  if EFI_ERROR env.openStatus then
    { status := env.openStatus, buffer := none, bufferSize := 0 }
  else if env.getInfoSizeStatus ≠ .BufferTooSmall then
    { status := env.getInfoSizeStatus, buffer := none, bufferSize := 0 }
  else if env.allocInfoOk = false then
    { status := .OutOfResources, buffer := none, bufferSize := 0 }
  else if EFI_ERROR env.getInfoStatus then
    { status := env.getInfoStatus, buffer := none, bufferSize := 0 }
  else if env.allocBufOk = false then
    { status := .OutOfResources, buffer := none, bufferSize := env.file.content.length }
  else if EFI_ERROR env.file.readStatus then
    { status := env.file.readStatus, buffer := none, bufferSize := 0 }
  else
    { status := .Success, buffer := some env.file.content,
      bufferSize := env.file.content.length }

/-! Orchestrator (`LoadAndStartKernelFromAnyFs`, Uefi2.c lines 348-485, and
`UefiMain`, lines 487-513). -/

/-- Outcomes of the external calls one orchestration run makes, plus the
address the allocator chose for the kernel buffer. -/
structure OrchEnv where
  findStatus : EfiStatus
  kernelLoad : LoadFileEnv
  initrdLoad : LoadFileEnv
  kernelAddr : Nat
  installStatus : EfiStatus
  loadImageStatus : EfiStatus
  handleProtoStatus : EfiStatus
  startImageStatus : EfiStatus
  deriving DecidableEq, Repr

/-- Observable outcome of one orchestration run: the returned status together
with the externally visible events (root closed, initrd warning logged,
provider registered and with which context, descriptor built, image loaded,
command line set, start-image reached). -/
structure OrchResult where
  status : EfiStatus
  rootClosed : Bool
  warnedNoInitrd : Bool
  initrdRegistered : Bool
  initrdCtx : Option INITRD_LOADFILE2_CTX
  kernelDp : Option MEMMAP_DEVICE_PATH_WITH_END
  imageLoaded : Bool
  cmdlineSet : Option String
  startedImage : Bool
  deriving DecidableEq, Repr

/-- Tail of `LoadAndStartKernelFromAnyFs` from the descriptor construction
onward (Uefi2.c lines 427-485): build `KernelDp`, call `LoadImage`, fetch the
kernel's LoadedImage protocol, set the command line, and call `StartImage`,
whose status is returned verbatim. -/
def orchStartPhase (env : OrchEnv) (cmdline : String) (warned registered : Bool)
    (ctx : Option INITRD_LOADFILE2_CTX) (kernelSize : Nat) : OrchResult :=
  let dp := buildKernelDp env.kernelAddr kernelSize
  if EFI_ERROR env.loadImageStatus then
    { status := env.loadImageStatus, rootClosed := true, warnedNoInitrd := warned,
      initrdRegistered := registered, initrdCtx := ctx, kernelDp := some dp,
      imageLoaded := false, cmdlineSet := none, startedImage := false }
  else if EFI_ERROR env.handleProtoStatus then
    { status := env.handleProtoStatus, rootClosed := true, warnedNoInitrd := warned,
      initrdRegistered := registered, initrdCtx := ctx, kernelDp := some dp,
      imageLoaded := true, cmdlineSet := none, startedImage := false }
  else
    { status := env.startImageStatus, rootClosed := true, warnedNoInitrd := warned,
      initrdRegistered := registered, initrdCtx := ctx, kernelDp := some dp,
      imageLoaded := true, cmdlineSet := some cmdline, startedImage := true }

/-- `LoadAndStartKernelFromAnyFs` (Uefi2.c lines 348-485): locate the boot
volume, load the kernel, optionally load the initrd (a failure there is
logged as a warning and the run proceeds without an initrd), close the root,
register the initrd provider when a non-empty initrd was loaded, then hand
off to the start phase. -/
def LoadAndStartKernelFromAnyFs (env : OrchEnv) (cmdline : String)
    (useInitrd : Bool) : OrchResult :=
  if EFI_ERROR env.findStatus then
    { status := env.findStatus, rootClosed := false, warnedNoInitrd := false,
      initrdRegistered := false, initrdCtx := none, kernelDp := none,
      imageLoaded := false, cmdlineSet := none, startedImage := false }
  else
    let kr := LoadFileToBuffer env.kernelLoad
    if EFI_ERROR kr.status then
      { status := kr.status, rootClosed := true, warnedNoInitrd := false,
        initrdRegistered := false, initrdCtx := none, kernelDp := none,
        imageLoaded := false, cmdlineSet := none, startedImage := false }
    else
      let ir := LoadFileToBuffer env.initrdLoad
      let initrdBuffer : Option (List Nat) :=
        if useInitrd then (if EFI_ERROR ir.status then none else ir.buffer) else none
      let initrdSize : Nat :=
        if useInitrd then (if EFI_ERROR ir.status then 0 else ir.bufferSize) else 0
      let warned : Bool := useInitrd && EFI_ERROR ir.status
      if 0 < initrdSize then
        if EFI_ERROR env.installStatus then
          { status := env.installStatus, rootClosed := true, warnedNoInitrd := warned,
            initrdRegistered := false, initrdCtx := none, kernelDp := none,
            imageLoaded := false, cmdlineSet := none, startedImage := false }
        else
          orchStartPhase env cmdline warned true
            (some { InitrdBuffer := initrdBuffer, InitrdSize := initrdSize })
            kr.bufferSize
      else
        orchStartPhase env cmdline warned false none kr.bufferSize

/-- The initrd size the orchestrator ends up with after the optional initrd
phase: zero when `useInitrd` is false or the initrd load failed, otherwise
the loaded size. -/
def orchInitrdSize (env : OrchEnv) (useInitrd : Bool) : Nat :=
  if useInitrd then
    (if EFI_ERROR (LoadFileToBuffer env.initrdLoad).status then 0
     else (LoadFileToBuffer env.initrdLoad).bufferSize)
  else 0

/-- `UefiMain` (Uefi2.c lines 487-513): decide the boot policy and return the
status of `LoadAndStartKernelFromAnyFs` verbatim. -/
def UefiMain (liOk : Bool) (loadOptions : Option (List Char))
    (loadOptionsSize : Nat) (env : OrchEnv) : EfiStatus :=
  let netBoot := IsNetworkBoot liOk loadOptions loadOptionsSize
  let cmdline := if netBoot then KernelCmdlineNfs else KernelCmdline
  let useInitrd := if netBoot then false else true
  (LoadAndStartKernelFromAnyFs env cmdline useInitrd).status

/-! Theorems. -/

/-- Claim C1: for every provider context and every `InitrdLoadFile` query
with a non-null size pointer, an empty context (null buffer or zero size)
yields `EFI_NOT_FOUND`; a null caller buffer or a declared size below the
stored size yields `EFI_BUFFER_TOO_SMALL` with the reported size set to the
stored size; otherwise the stored bytes are copied into the caller's buffer,
the reported size equals the stored size, and the query succeeds. -/
theorem C1_initrd_provide (ctx : INITRD_LOADFILE2_CTX) (n : Nat)
    (buffer : Option (List Nat)) :
    ((ctx.InitrdBuffer = none ∨ ctx.InitrdSize = 0) →
      (InitrdLoadFile ctx (some n) buffer).status = .NotFound)
    ∧ (∀ src, ctx.InitrdBuffer = some src → ctx.InitrdSize ≠ 0 →
        (buffer = none ∨ n < ctx.InitrdSize) →
        (InitrdLoadFile ctx (some n) buffer).status = .BufferTooSmall ∧
        (InitrdLoadFile ctx (some n) buffer).bufferSize = some ctx.InitrdSize)
    ∧ (∀ src b, ctx.InitrdBuffer = some src → ctx.InitrdSize ≠ 0 →
        buffer = some b → ctx.InitrdSize ≤ n → src.length = ctx.InitrdSize →
        (InitrdLoadFile ctx (some n) buffer).status = .Success ∧
        (InitrdLoadFile ctx (some n) buffer).bufferSize = some ctx.InitrdSize ∧
        (InitrdLoadFile ctx (some n) buffer).buffer
          = some (src ++ b.drop ctx.InitrdSize)) := by
  obtain ⟨ib, isz⟩ := ctx
  refine ⟨?_, ?_, ?_⟩
  · rintro (h | h)
    · simp only at h
      subst h
      simp [InitrdLoadFile]
    · simp only at h
      subst h
      cases ib <;> simp [InitrdLoadFile]
  · rintro src hsrc hisz (hb | hb)
    · simp only at hsrc
      subst hsrc
      subst hb
      simp [InitrdLoadFile, hisz]
    · simp only at hsrc hisz hb ⊢
      subst hsrc
      cases buffer with
      | none => simp [InitrdLoadFile, hisz]
      | some b => simp [InitrdLoadFile, hisz, hb]
  · rintro src b hsrc hisz hb hle hlen
    simp only at hsrc hisz hle hlen ⊢
    subst hsrc
    subst hb
    have hnlt : ¬ n < isz := Nat.not_lt.mpr hle
    simp [InitrdLoadFile, hisz, hnlt, CopyMem, hlen ▸ List.take_length src]

/-- Closed witness for C1 at a concrete context, size and buffer. -/
theorem C1_initrd_provide_witness :
    (InitrdLoadFile ⟨some [1, 2, 3], 3⟩ (some 5) (some [9, 9, 9, 9, 9])).status
        = .Success ∧
    (InitrdLoadFile ⟨some [1, 2, 3], 3⟩ (some 5) (some [9, 9, 9, 9, 9])).bufferSize
        = some 3 ∧
    (InitrdLoadFile ⟨some [1, 2, 3], 3⟩ (some 5) (some [9, 9, 9, 9, 9])).buffer
        = some ([1, 2, 3] ++ List.drop 3 [9, 9, 9, 9, 9]) :=
  (C1_initrd_provide ⟨some [1, 2, 3], 3⟩ 5 (some [9, 9, 9, 9, 9])).2.2
    [1, 2, 3] [9, 9, 9, 9, 9] rfl (by decide) rfl (by decide) (by decide)

/-- Claim C6: with a registered context holding an `M`-byte ramdisk, a query
with no buffer and a query with a too-small buffer both answer
`EFI_BUFFER_TOO_SMALL` reporting size `M`; a query with an `M`-or-larger
buffer succeeds with the stored bytes copied in; and repeating the successful
query on its own output reproduces the same result (the callback never writes
the context, which the embedding reflects by `ctx` being a read-only input). -/
theorem C6_initrd_idempotent (src : List Nat) (M : Nat)
    (hM : 0 < M) (hlen : src.length = M) :
    (∀ k, (InitrdLoadFile ⟨some src, M⟩ (some k) none).status = .BufferTooSmall ∧
          (InitrdLoadFile ⟨some src, M⟩ (some k) none).bufferSize = some M)
    ∧ (∀ n b, n < M →
        (InitrdLoadFile ⟨some src, M⟩ (some n) (some b)).status = .BufferTooSmall ∧
        (InitrdLoadFile ⟨some src, M⟩ (some n) (some b)).bufferSize = some M)
    ∧ (∀ n b, M ≤ n →
        (InitrdLoadFile ⟨some src, M⟩ (some n) (some b)).status = .Success ∧
        (InitrdLoadFile ⟨some src, M⟩ (some n) (some b)).bufferSize = some M ∧
        (InitrdLoadFile ⟨some src, M⟩ (some n) (some b)).buffer
          = some (src ++ b.drop M))
    ∧ (∀ n b, M ≤ n →
        InitrdLoadFile ⟨some src, M⟩ (some n)
            ((InitrdLoadFile ⟨some src, M⟩ (some n) (some b)).buffer)
          = InitrdLoadFile ⟨some src, M⟩ (some n) (some b)) := by
  have hMne : M ≠ 0 := hM.ne'
  have hsucc : ∀ n b, M ≤ n →
      InitrdLoadFile ⟨some src, M⟩ (some n) (some b)
        = { status := .Success, bufferSize := some M,
            buffer := some (src ++ b.drop M) } := by
    intro n b hle
    have hnlt : ¬ n < M := Nat.not_lt.mpr hle
    simp [InitrdLoadFile, hMne, hnlt, CopyMem, hlen ▸ List.take_length src]
  refine ⟨?_, ?_, ?_, ?_⟩
  · intro k
    simp [InitrdLoadFile, hMne]
  · intro n b hlt
    simp [InitrdLoadFile, hMne, hlt]
  · intro n b hle
    rw [hsucc n b hle]
    exact ⟨rfl, rfl, rfl⟩
  · intro n b hle
    rw [hsucc n b hle]
    have hdrop : (src ++ b.drop M).drop M = b.drop M := by
      calc (src ++ b.drop M).drop M
          = (src ++ b.drop M).drop src.length := by rw [hlen]
        _ = b.drop M := List.drop_left src (b.drop M)
    rw [hsucc n (src ++ b.drop M) hle, hdrop]

/-- Closed witness for C6 with a 2-byte ramdisk. -/
theorem C6_initrd_idempotent_witness :
    ((InitrdLoadFile ⟨some [4, 5], 2⟩ (some 0) none).status = .BufferTooSmall ∧
     (InitrdLoadFile ⟨some [4, 5], 2⟩ (some 0) none).bufferSize = some 2) ∧
    ((InitrdLoadFile ⟨some [4, 5], 2⟩ (some 1) (some [0])).status = .BufferTooSmall ∧
     (InitrdLoadFile ⟨some [4, 5], 2⟩ (some 1) (some [0])).bufferSize = some 2) ∧
    ((InitrdLoadFile ⟨some [4, 5], 2⟩ (some 2) (some [0, 0])).status = .Success ∧
     (InitrdLoadFile ⟨some [4, 5], 2⟩ (some 2) (some [0, 0])).bufferSize = some 2 ∧
     (InitrdLoadFile ⟨some [4, 5], 2⟩ (some 2) (some [0, 0])).buffer
       = some ([4, 5] ++ List.drop 2 [0, 0])) ∧
    InitrdLoadFile ⟨some [4, 5], 2⟩ (some 2)
        ((InitrdLoadFile ⟨some [4, 5], 2⟩ (some 2) (some [0, 0])).buffer)
      = InitrdLoadFile ⟨some [4, 5], 2⟩ (some 2) (some [0, 0]) := by
  have h := C6_initrd_idempotent [4, 5] 2 (by decide) (by decide)
  exact ⟨h.1 0, h.2.1 1 [0] (by decide), h.2.2.1 2 [0, 0] (by decide),
    h.2.2.2 2 [0, 0] (by decide)⟩

/-- Claim C10: on every non-success outcome of `InitrdLoadFile` the caller's
data buffer is unchanged, and on the invalid-parameter and not-found outcomes
the reported-size output is unchanged as well (only the buffer-too-small
outcome rewrites it). -/
theorem C10_provider_frame (ctx : INITRD_LOADFILE2_CTX) (bufferSize : Option Nat)
    (buffer : Option (List Nat)) :
    ((InitrdLoadFile ctx bufferSize buffer).status ≠ .Success →
      (InitrdLoadFile ctx bufferSize buffer).buffer = buffer)
    ∧ ((InitrdLoadFile ctx bufferSize buffer).status = .InvalidParameter ∨
        (InitrdLoadFile ctx bufferSize buffer).status = .NotFound →
      (InitrdLoadFile ctx bufferSize buffer).bufferSize = bufferSize) := by
  obtain ⟨ib, isz⟩ := ctx
  cases bufferSize with
  | none => simp [InitrdLoadFile]
  | some sz =>
    cases ib with
    | none => simp [InitrdLoadFile]
    | some src =>
      by_cases h0 : isz = 0
      · simp [InitrdLoadFile, h0]
      · cases buffer with
        | none => simp [InitrdLoadFile, h0]
        | some b =>
          by_cases hlt : sz < isz
          · simp [InitrdLoadFile, h0, hlt]
          · simp [InitrdLoadFile, h0, hlt]

/-- Claim C2: a hint that is absent, empty, or free of the `BOOT=PXE`
substring selects the local command line with `includeRamdisk = true`; a hint
containing `BOOT=PXE` anywhere selects the NFS command line with
`includeRamdisk = false`. -/
theorem C2_boot_policy (hint : Option (List Char)) :
    ((hint = none ∨ hint = some [] ∨
        (∀ s, hint = some s → strStrFound BOOTOPT_PXE s = false)) →
      UefiMainPolicy true hint (loadOptionsSizeOf hint) = (KernelCmdline, true))
    ∧ (∀ s, hint = some s → strStrFound BOOTOPT_PXE s = true →
      UefiMainPolicy true hint (loadOptionsSizeOf hint)
        = (KernelCmdlineNfs, false)) := by
  constructor
  · intro h
    cases hint with
    | none => rfl
    | some s =>
      have hs : strStrFound BOOTOPT_PXE s = false := by
        rcases h with h | h | h
        · exact absurd h (by simp)
        · simp only [Option.some.injEq] at h
          subst h
          rfl
        · exact h s rfl
      have hge : ¬ loadOptionsSizeOf (some s) < sizeofCHAR16 := by
        simp only [loadOptionsSizeOf, sizeofCHAR16]
        omega
      simp [UefiMainPolicy, IsNetworkBoot, hge, hs]
  · intro s hsome hs
    subst hsome
    have hge : ¬ loadOptionsSizeOf (some s) < sizeofCHAR16 := by
      simp only [loadOptionsSizeOf, sizeofCHAR16]
      omega
    simp [UefiMainPolicy, IsNetworkBoot, hge, hs]

/-- Closed witness for C2: an absent hint selects the local policy and the
hint `BOOT=PXE extra=1` selects the NFS policy. -/
theorem C2_boot_policy_witness :
    UefiMainPolicy true none (loadOptionsSizeOf none) = (KernelCmdline, true) ∧
    UefiMainPolicy true (some "BOOT=PXE extra=1".data)
        (loadOptionsSizeOf (some "BOOT=PXE extra=1".data))
      = (KernelCmdlineNfs, false) :=
  ⟨(C2_boot_policy none).1 (Or.inl rfl),
   (C2_boot_policy (some "BOOT=PXE extra=1".data)).2 "BOOT=PXE extra=1".data rfl
     (by decide)⟩

/-- Claim C3: the built kernel descriptor's length fields are the fixed
record sizes encoded as little-endian 16-bit bytes regardless of the buffer
address `A` and length `L`, and for every in-range buffer the memory-range
record reports starting address `A` and ending address `A + L - 1`. -/
theorem C3_memmap_descriptor (A L : Nat) :
    ((buildKernelDp A L).MemMap.Header.dpType = HARDWARE_DEVICE_PATH ∧
     (buildKernelDp A L).MemMap.Header.dpSubType = HW_MEMMAP_DP ∧
     (buildKernelDp A L).MemMap.Header.length0 = sizeofMEMMAP_DEVICE_PATH % 256 ∧
     (buildKernelDp A L).MemMap.Header.length1
       = sizeofMEMMAP_DEVICE_PATH / 256 % 256 ∧
     (buildKernelDp A L).EndNode.length0 = sizeofEFI_DEVICE_PATH_PROTOCOL ∧
     (buildKernelDp A L).EndNode.length1 = 0)
    ∧ (1 ≤ A + L → A + L ≤ 2 ^ 64 → A < 2 ^ 64 →
       (buildKernelDp A L).MemMap.StartingAddress = A ∧
       (buildKernelDp A L).MemMap.EndingAddress = A + L - 1) := by
  constructor
  · exact ⟨rfl, rfl, rfl, rfl, rfl, rfl⟩
  · intro h1 h2 hA
    simp only [buildKernelDp, UINT64_MOD]
    constructor
    · omega
    · omega

/-- Closed witness for C3 at address 4096 and length 100. -/
theorem C3_memmap_descriptor_witness :
    ((buildKernelDp 4096 100).MemMap.Header.dpType = HARDWARE_DEVICE_PATH ∧
     (buildKernelDp 4096 100).MemMap.Header.dpSubType = HW_MEMMAP_DP ∧
     (buildKernelDp 4096 100).MemMap.Header.length0
       = sizeofMEMMAP_DEVICE_PATH % 256 ∧
     (buildKernelDp 4096 100).MemMap.Header.length1
       = sizeofMEMMAP_DEVICE_PATH / 256 % 256 ∧
     (buildKernelDp 4096 100).EndNode.length0 = sizeofEFI_DEVICE_PATH_PROTOCOL ∧
     (buildKernelDp 4096 100).EndNode.length1 = 0)
    ∧ ((buildKernelDp 4096 100).MemMap.StartingAddress = 4096 ∧
       (buildKernelDp 4096 100).MemMap.EndingAddress = 4096 + 100 - 1) :=
  ⟨(C3_memmap_descriptor 4096 100).1,
   (C3_memmap_descriptor 4096 100).2 (by norm_num) (by norm_num) (by norm_num)⟩

/-- Helper: when no handle carries the kernel path, the probing loop reports
`EFI_NOT_FOUND`, hands back no root, and has closed exactly the roots it
opened. -/
theorem findLoop_all_no_kernel (hs : List FsHandle) (i : Nat)
    (h : ∀ fh ∈ hs, fh.hasKernel = false) :
    (findLoop hs i).status = .NotFound ∧ (findLoop hs i).rootOut = none ∧
    (findLoop hs i).rootsClosed = (findLoop hs i).rootsOpened := by
  induction hs generalizing i with
  | nil => exact ⟨rfl, rfl, rfl⟩
  | cons fh rest ih =>
    have hfh : fh.hasKernel = false := h fh (List.mem_cons_self _ _)
    have hrest : ∀ x ∈ rest, x.hasKernel = false :=
      fun x hx => h x (List.mem_cons_of_mem _ hx)
    obtain ⟨h1, h2, h3⟩ := ih (i + 1) hrest
    by_cases s1 : fh.sfspOk
    · by_cases s2 : fh.openVolumeOk
      · simp [findLoop, s1, s2, hfh, h1, h2, h3]
      · simpa [findLoop, s1, s2] using ⟨h1, h2, h3⟩
    · simpa [findLoop, s1] using ⟨h1, h2, h3⟩

/-- Claim C4: when no enumerated volume contains the kernel path, the locator
returns `EFI_NOT_FOUND`, returns no root, and every root it opened while
probing has been closed. -/
theorem C4_locator_not_found (handles : List FsHandle)
    (h : ∀ fh ∈ handles, fh.hasKernel = false) :
    (FindBootFileSystem handles).status = .NotFound ∧
    (FindBootFileSystem handles).rootOut = none ∧
    (FindBootFileSystem handles).rootsClosed
      = (FindBootFileSystem handles).rootsOpened :=
  findLoop_all_no_kernel handles 0 h

/-- Closed witness for C4 on two kernel-less handles. -/
theorem C4_locator_not_found_witness :
    (FindBootFileSystem [⟨true, true, false⟩, ⟨false, true, false⟩]).status
        = .NotFound ∧
    (FindBootFileSystem [⟨true, true, false⟩, ⟨false, true, false⟩]).rootOut
        = none ∧
    (FindBootFileSystem [⟨true, true, false⟩, ⟨false, true, false⟩]).rootsClosed
      = (FindBootFileSystem [⟨true, true, false⟩, ⟨false, true, false⟩]).rootsOpened :=
  C4_locator_not_found [⟨true, true, false⟩, ⟨false, true, false⟩] (by decide)

/-- Helper: the probing loop on a handle list whose first acceptable handle
is `fh` (everything before it fails the probe) succeeds at `fh`'s index,
opens and immediately closes exactly that probe file handle, and closes
exactly the earlier opened roots. -/
theorem findLoop_first_probe (pre : List FsHandle) (fh : FsHandle)
    (post : List FsHandle) (i : Nat)
    (hpre : ∀ p ∈ pre, probeOk p = false) (hfh : probeOk fh = true) :
    findLoop (pre ++ fh :: post) i =
      { status := .Success, rootOut := some (i + pre.length),
        rootsOpened := openedRootsFrom pre i ++ [i + pre.length],
        rootsClosed := openedRootsFrom pre i,
        probesOpened := [i + pre.length], probesClosed := [i + pre.length] } := by
  induction pre generalizing i with
  | nil =>
    have s1 : fh.sfspOk = true := by
      simp only [probeOk, Bool.and_eq_true] at hfh
      exact hfh.1.1
    have s2 : fh.openVolumeOk = true := by
      simp only [probeOk, Bool.and_eq_true] at hfh
      exact hfh.1.2
    have s3 : fh.hasKernel = true := by
      simp only [probeOk, Bool.and_eq_true] at hfh
      exact hfh.2
    simp [findLoop, openedRootsFrom, s1, s2, s3]
  | cons p rest ih =>
    have hp : probeOk p = false := hpre p (List.mem_cons_self _ _)
    have hrest : ∀ x ∈ rest, probeOk x = false :=
      fun x hx => hpre x (List.mem_cons_of_mem _ hx)
    have hidx : i + 1 + rest.length = i + (rest.length + 1) := by omega
    by_cases s1 : p.sfspOk
    · by_cases s2 : p.openVolumeOk
      · have s3 : p.hasKernel = false := by
          simp only [probeOk, s1, s2, Bool.true_and] at hp
          exact hp
        simp [findLoop, openedRootsFrom, s1, s2, s3, ih (i + 1) hrest, hidx]
      · simp only [List.cons_append]
        rw [show findLoop (p :: (rest ++ fh :: post)) i
              = findLoop (rest ++ fh :: post) (i + 1) by
            simp [findLoop, s1, s2]]
        rw [ih (i + 1) hrest]
        simp [openedRootsFrom, s1, s2, hidx]
    · simp only [List.cons_append]
      rw [show findLoop (p :: (rest ++ fh :: post)) i
            = findLoop (rest ++ fh :: post) (i + 1) by
          simp [findLoop, s1]]
      rw [ih (i + 1) hrest]
      simp [openedRootsFrom, s1, hidx]

/-- Claim C5: when the handles split as `pre ++ fh :: post` with every handle
in `pre` failing the probe and `fh` passing it, the locator probes in
enumeration order and returns the root of `fh` (index `pre.length`) open,
having opened and immediately closed exactly that one probe file handle and
closed every root opened for an earlier rejected candidate. -/
theorem C5_locator_first_match (pre : List FsHandle) (fh : FsHandle)
    (post : List FsHandle)
    (hpre : ∀ p ∈ pre, probeOk p = false) (hfh : probeOk fh = true) :
    (FindBootFileSystem (pre ++ fh :: post)).status = .Success ∧
    (FindBootFileSystem (pre ++ fh :: post)).rootOut = some pre.length ∧
    (FindBootFileSystem (pre ++ fh :: post)).probesOpened = [pre.length] ∧
    (FindBootFileSystem (pre ++ fh :: post)).probesClosed = [pre.length] ∧
    (FindBootFileSystem (pre ++ fh :: post)).rootsOpened
      = openedRootsFrom pre 0 ++ [pre.length] ∧
    (FindBootFileSystem (pre ++ fh :: post)).rootsClosed
      = openedRootsFrom pre 0 := by
  have h := findLoop_first_probe pre fh post 0 hpre hfh
  simp [FindBootFileSystem, h]

/-- Closed witness for C5: four handles, the kernel first found at index 2;
the rejected root 0 is closed, the inaccessible handle 1 opens nothing, root
2 is returned open, and the later volume with a kernel is never probed. -/
theorem C5_locator_first_match_witness :
    (FindBootFileSystem
      [⟨true, true, false⟩, ⟨false, false, false⟩,
       ⟨true, true, true⟩, ⟨true, true, true⟩]).status = .Success ∧
    (FindBootFileSystem
      [⟨true, true, false⟩, ⟨false, false, false⟩,
       ⟨true, true, true⟩, ⟨true, true, true⟩]).rootOut = some 2 ∧
    (FindBootFileSystem
      [⟨true, true, false⟩, ⟨false, false, false⟩,
       ⟨true, true, true⟩, ⟨true, true, true⟩]).probesOpened = [2] ∧
    (FindBootFileSystem
      [⟨true, true, false⟩, ⟨false, false, false⟩,
       ⟨true, true, true⟩, ⟨true, true, true⟩]).probesClosed = [2] ∧
    (FindBootFileSystem
      [⟨true, true, false⟩, ⟨false, false, false⟩,
       ⟨true, true, true⟩, ⟨true, true, true⟩]).rootsOpened = [0, 2] ∧
    (FindBootFileSystem
      [⟨true, true, false⟩, ⟨false, false, false⟩,
       ⟨true, true, true⟩, ⟨true, true, true⟩]).rootsClosed = [0] := by
  have h := C5_locator_first_match
    [⟨true, true, false⟩, ⟨false, false, false⟩] ⟨true, true, true⟩
    [⟨true, true, true⟩] (by decide) (by decide)
  simpa [openedRootsFrom] using h

/-- Helper: a status with the error bit set is never `EFI_SUCCESS`. -/
theorem EFI_ERROR_ne_success {s : EfiStatus} (h : EFI_ERROR s = true) :
    s ≠ .Success := by
  intro hc
  subst hc
  simp [EFI_ERROR] at h

/-- Claim C7: a `Read` that fails is surfaced as the underlying read error
with the allocation released (no silently truncated success), and whenever
`LoadFileToBuffer` succeeds the returned buffer holds exactly the file's
bytes and the reported size is exactly the file's size.  The sizing `GetInfo`
call is assumed not to answer plain success, which the UEFI contract for a
null info buffer rules out. -/
theorem C7_buffer_loader (env : LoadFileEnv) :
    (EFI_ERROR env.openStatus = false →
     env.getInfoSizeStatus = .BufferTooSmall →
     env.allocInfoOk = true →
     EFI_ERROR env.getInfoStatus = false →
     env.allocBufOk = true →
     EFI_ERROR env.file.readStatus = true →
       (LoadFileToBuffer env).status = env.file.readStatus ∧
       (LoadFileToBuffer env).buffer = none ∧
       (LoadFileToBuffer env).bufferSize = 0)
    ∧ (env.getInfoSizeStatus ≠ .Success →
       (LoadFileToBuffer env).status = .Success →
       (LoadFileToBuffer env).buffer = some env.file.content ∧
       (LoadFileToBuffer env).bufferSize = env.file.content.length) := by
  constructor
  · intro h1 h2 h3 h4 h5 h6
    simp [LoadFileToBuffer, h1, h2, h3, h4, h5, h6]
  · intro hconf hs
    unfold LoadFileToBuffer at hs ⊢
    split_ifs at hs ⊢ with h1 h2 h3 h4 h5 h6
    all_goals
      first
        | exact ⟨rfl, rfl⟩
        | exact hs.elim
        | exact absurd hs (EFI_ERROR_ne_success h1)
        | exact absurd hs hconf
        | exact absurd hs (EFI_ERROR_ne_success h4)
        | exact absurd hs (EFI_ERROR_ne_success h6)

/-- Closed witness for C7: a device error during `Read` is propagated with
the outputs reset, and a clean 2-byte file loads to exactly its bytes. -/
theorem C7_buffer_loader_witness :
    ((LoadFileToBuffer
        ⟨.Success, .BufferTooSmall, true, .Success, true, ⟨[1, 2], .DeviceError⟩⟩).status
        = .DeviceError ∧
     (LoadFileToBuffer
        ⟨.Success, .BufferTooSmall, true, .Success, true, ⟨[1, 2], .DeviceError⟩⟩).buffer
        = none ∧
     (LoadFileToBuffer
        ⟨.Success, .BufferTooSmall, true, .Success, true, ⟨[1, 2], .DeviceError⟩⟩).bufferSize
        = 0) ∧
    ((LoadFileToBuffer
        ⟨.Success, .BufferTooSmall, true, .Success, true, ⟨[1, 2], .Success⟩⟩).buffer
        = some [1, 2] ∧
     (LoadFileToBuffer
        ⟨.Success, .BufferTooSmall, true, .Success, true, ⟨[1, 2], .Success⟩⟩).bufferSize
        = List.length [1, 2]) :=
  ⟨(C7_buffer_loader
      ⟨.Success, .BufferTooSmall, true, .Success, true, ⟨[1, 2], .DeviceError⟩⟩).1
      rfl rfl rfl rfl rfl rfl,
   (C7_buffer_loader
      ⟨.Success, .BufferTooSmall, true, .Success, true, ⟨[1, 2], .Success⟩⟩).2
      (by decide) rfl⟩

/-- Helper: once the volume is found, the kernel is loaded, and registration
does not fail (or is skipped), the orchestrator reaches the start phase with
the kernel's loaded size. -/
theorem orch_reach_start (env : OrchEnv) (cmdline : String) (useInitrd : Bool)
    (h1 : EFI_ERROR env.findStatus = false)
    (h2 : EFI_ERROR (LoadFileToBuffer env.kernelLoad).status = false)
    (h3 : 0 < orchInitrdSize env useInitrd → EFI_ERROR env.installStatus = false) :
    ∃ warned registered ctx,
      LoadAndStartKernelFromAnyFs env cmdline useInitrd
        = orchStartPhase env cmdline warned registered ctx
            (LoadFileToBuffer env.kernelLoad).bufferSize := by
  cases useInitrd with
  | false =>
    exact ⟨false, false, none, by simp [LoadAndStartKernelFromAnyFs, h1, h2]⟩
  | true =>
    by_cases hr : EFI_ERROR (LoadFileToBuffer env.initrdLoad).status = true
    · exact ⟨true, false, none,
        by simp [LoadAndStartKernelFromAnyFs, h1, h2, hr]⟩
    · simp only [Bool.not_eq_true] at hr
      by_cases hq : 0 < (LoadFileToBuffer env.initrdLoad).bufferSize
      · have hinst : EFI_ERROR env.installStatus = false := by
          apply h3
          simpa [orchInitrdSize, hr] using hq
        exact ⟨false, true,
          some ⟨(LoadFileToBuffer env.initrdLoad).buffer,
                (LoadFileToBuffer env.initrdLoad).bufferSize⟩,
          by simp [LoadAndStartKernelFromAnyFs, h1, h2, hr, hq, hinst]⟩
      · exact ⟨false, false, none,
          by simp [LoadAndStartKernelFromAnyFs, h1, h2, hr, hq]⟩

/-- Claim C8: with `includeRamdisk = true`, a failed ramdisk load is
downgraded to a warning and the run proceeds without a ramdisk (no provider
registered, command line unchanged, kernel still loaded and started), while a
failure of volume location, kernel load, provider registration, image load,
or the kernel LoadedImage lookup aborts the remaining sequence and surfaces
that error as the returned status. -/
theorem C8_orchestrator_errors (env : OrchEnv) (cmdline : String) :
    (EFI_ERROR env.findStatus = false →
     EFI_ERROR (LoadFileToBuffer env.kernelLoad).status = false →
     EFI_ERROR (LoadFileToBuffer env.initrdLoad).status = true →
     EFI_ERROR env.loadImageStatus = false →
     EFI_ERROR env.handleProtoStatus = false →
       (LoadAndStartKernelFromAnyFs env cmdline true).warnedNoInitrd = true ∧
       (LoadAndStartKernelFromAnyFs env cmdline true).initrdRegistered = false ∧
       (LoadAndStartKernelFromAnyFs env cmdline true).cmdlineSet = some cmdline ∧
       (LoadAndStartKernelFromAnyFs env cmdline true).imageLoaded = true ∧
       (LoadAndStartKernelFromAnyFs env cmdline true).startedImage = true ∧
       (LoadAndStartKernelFromAnyFs env cmdline true).status = env.startImageStatus)
    ∧ (∀ useInitrd, EFI_ERROR env.findStatus = true →
       (LoadAndStartKernelFromAnyFs env cmdline useInitrd).status = env.findStatus ∧
       (LoadAndStartKernelFromAnyFs env cmdline useInitrd).imageLoaded = false ∧
       (LoadAndStartKernelFromAnyFs env cmdline useInitrd).startedImage = false)
    ∧ (∀ useInitrd, EFI_ERROR env.findStatus = false →
       EFI_ERROR (LoadFileToBuffer env.kernelLoad).status = true →
       (LoadAndStartKernelFromAnyFs env cmdline useInitrd).status
         = (LoadFileToBuffer env.kernelLoad).status ∧
       (LoadAndStartKernelFromAnyFs env cmdline useInitrd).imageLoaded = false ∧
       (LoadAndStartKernelFromAnyFs env cmdline useInitrd).startedImage = false)
    ∧ (EFI_ERROR env.findStatus = false →
       EFI_ERROR (LoadFileToBuffer env.kernelLoad).status = false →
       0 < orchInitrdSize env true →
       EFI_ERROR env.installStatus = true →
       (LoadAndStartKernelFromAnyFs env cmdline true).status = env.installStatus ∧
       (LoadAndStartKernelFromAnyFs env cmdline true).initrdRegistered = false ∧
       (LoadAndStartKernelFromAnyFs env cmdline true).imageLoaded = false ∧
       (LoadAndStartKernelFromAnyFs env cmdline true).startedImage = false)
    ∧ (∀ useInitrd, EFI_ERROR env.findStatus = false →
       EFI_ERROR (LoadFileToBuffer env.kernelLoad).status = false →
       (0 < orchInitrdSize env useInitrd → EFI_ERROR env.installStatus = false) →
       EFI_ERROR env.loadImageStatus = true →
       (LoadAndStartKernelFromAnyFs env cmdline useInitrd).status
         = env.loadImageStatus ∧
       (LoadAndStartKernelFromAnyFs env cmdline useInitrd).imageLoaded = false ∧
       (LoadAndStartKernelFromAnyFs env cmdline useInitrd).startedImage = false)
    ∧ (∀ useInitrd, EFI_ERROR env.findStatus = false →
       EFI_ERROR (LoadFileToBuffer env.kernelLoad).status = false →
       (0 < orchInitrdSize env useInitrd → EFI_ERROR env.installStatus = false) →
       EFI_ERROR env.loadImageStatus = false →
       EFI_ERROR env.handleProtoStatus = true →
       (LoadAndStartKernelFromAnyFs env cmdline useInitrd).status
         = env.handleProtoStatus ∧
       (LoadAndStartKernelFromAnyFs env cmdline useInitrd).cmdlineSet = none ∧
       (LoadAndStartKernelFromAnyFs env cmdline useInitrd).startedImage = false) := by
  refine ⟨?_, ?_, ?_, ?_, ?_, ?_⟩
  · intro h1 h2 h3 h4 h5
    simp [LoadAndStartKernelFromAnyFs, orchStartPhase, h1, h2, h3, h4, h5]
  · intro useInitrd h1
    simp [LoadAndStartKernelFromAnyFs, h1]
  · intro useInitrd h1 h2
    simp [LoadAndStartKernelFromAnyFs, h1, h2]
  · intro h1 h2 hsz h4
    have hr : EFI_ERROR (LoadFileToBuffer env.initrdLoad).status = false := by
      by_contra hc
      simp only [Bool.not_eq_false] at hc
      simp [orchInitrdSize, hc] at hsz
    have hq : 0 < (LoadFileToBuffer env.initrdLoad).bufferSize := by
      simpa [orchInitrdSize, hr] using hsz
    simp [LoadAndStartKernelFromAnyFs, h1, h2, hr, hq, h4]
  · intro useInitrd h1 h2 h3 h4
    obtain ⟨w, r, c, heq⟩ := orch_reach_start env cmdline useInitrd h1 h2 h3
    rw [heq]
    simp [orchStartPhase, h4]
  · intro useInitrd h1 h2 h3 h4 h5
    obtain ⟨w, r, c, heq⟩ := orch_reach_start env cmdline useInitrd h1 h2 h3
    rw [heq]
    simp [orchStartPhase, h4, h5]

/-- Closed witness for C8: a run whose initrd file open fails is downgraded
to a warning and still starts the kernel, and a run whose volume search fails
aborts with that error. -/
theorem C8_orchestrator_errors_witness :
    ((LoadAndStartKernelFromAnyFs
        ⟨.Success, ⟨.Success, .BufferTooSmall, true, .Success, true, ⟨[1], .Success⟩⟩,
         ⟨.NotFound, .BufferTooSmall, true, .Success, true, ⟨[], .Success⟩⟩,
         4096, .Success, .Success, .Success, .Aborted⟩
        KernelCmdline true).warnedNoInitrd = true ∧
     (LoadAndStartKernelFromAnyFs
        ⟨.Success, ⟨.Success, .BufferTooSmall, true, .Success, true, ⟨[1], .Success⟩⟩,
         ⟨.NotFound, .BufferTooSmall, true, .Success, true, ⟨[], .Success⟩⟩,
         4096, .Success, .Success, .Success, .Aborted⟩
        KernelCmdline true).initrdRegistered = false ∧
     (LoadAndStartKernelFromAnyFs
        ⟨.Success, ⟨.Success, .BufferTooSmall, true, .Success, true, ⟨[1], .Success⟩⟩,
         ⟨.NotFound, .BufferTooSmall, true, .Success, true, ⟨[], .Success⟩⟩,
         4096, .Success, .Success, .Success, .Aborted⟩
        KernelCmdline true).cmdlineSet = some KernelCmdline ∧
     (LoadAndStartKernelFromAnyFs
        ⟨.Success, ⟨.Success, .BufferTooSmall, true, .Success, true, ⟨[1], .Success⟩⟩,
         ⟨.NotFound, .BufferTooSmall, true, .Success, true, ⟨[], .Success⟩⟩,
         4096, .Success, .Success, .Success, .Aborted⟩
        KernelCmdline true).imageLoaded = true ∧
     (LoadAndStartKernelFromAnyFs
        ⟨.Success, ⟨.Success, .BufferTooSmall, true, .Success, true, ⟨[1], .Success⟩⟩,
         ⟨.NotFound, .BufferTooSmall, true, .Success, true, ⟨[], .Success⟩⟩,
         4096, .Success, .Success, .Success, .Aborted⟩
        KernelCmdline true).startedImage = true ∧
     (LoadAndStartKernelFromAnyFs
        ⟨.Success, ⟨.Success, .BufferTooSmall, true, .Success, true, ⟨[1], .Success⟩⟩,
         ⟨.NotFound, .BufferTooSmall, true, .Success, true, ⟨[], .Success⟩⟩,
         4096, .Success, .Success, .Success, .Aborted⟩
        KernelCmdline true).status = .Aborted) ∧
    (LoadAndStartKernelFromAnyFs
        ⟨.DeviceError, ⟨.Success, .BufferTooSmall, true, .Success, true, ⟨[1], .Success⟩⟩,
         ⟨.NotFound, .BufferTooSmall, true, .Success, true, ⟨[], .Success⟩⟩,
         4096, .Success, .Success, .Success, .Aborted⟩
        KernelCmdline false).status = .DeviceError :=
  ⟨(C8_orchestrator_errors
      ⟨.Success, ⟨.Success, .BufferTooSmall, true, .Success, true, ⟨[1], .Success⟩⟩,
       ⟨.NotFound, .BufferTooSmall, true, .Success, true, ⟨[], .Success⟩⟩,
       4096, .Success, .Success, .Success, .Aborted⟩
      KernelCmdline).1 rfl rfl rfl rfl rfl,
   ((C8_orchestrator_errors
      ⟨.DeviceError, ⟨.Success, .BufferTooSmall, true, .Success, true, ⟨[1], .Success⟩⟩,
       ⟨.NotFound, .BufferTooSmall, true, .Success, true, ⟨[], .Success⟩⟩,
       4096, .Success, .Success, .Success, .Aborted⟩
      KernelCmdline).2.1 false rfl).1⟩

/-- Counterexample to claim C9 as stated: in a run where every step succeeds
and `StartImage` returns `EFI_SUCCESS`, the loader returns that non-error
status to its caller even though start-image came back. -/
theorem C9_counterexample :
    (LoadAndStartKernelFromAnyFs
        ⟨.Success, ⟨.Success, .BufferTooSmall, true, .Success, true, ⟨[1], .Success⟩⟩,
         ⟨.Success, .BufferTooSmall, true, .Success, true, ⟨[], .Success⟩⟩,
         4096, .Success, .Success, .Success, .Success⟩
        KernelCmdline false).startedImage = true ∧
    EFI_ERROR
      (LoadAndStartKernelFromAnyFs
        ⟨.Success, ⟨.Success, .BufferTooSmall, true, .Success, true, ⟨[1], .Success⟩⟩,
         ⟨.Success, .BufferTooSmall, true, .Success, true, ⟨[], .Success⟩⟩,
         4096, .Success, .Success, .Success, .Success⟩
        KernelCmdline false).status = false :=
  ⟨rfl, rfl⟩

/-- Claim C9 as amended: when `StartImage` returns control, the loader hands
its status back verbatim (and `UefiMain` passes it through unchanged): an
error status from `StartImage` is surfaced as the loader's failure, but a
success status is returned as success rather than being converted into an
error. -/
theorem C9_startimage_passthrough (env : OrchEnv) (cmdline : String)
    (useInitrd : Bool)
    (h1 : EFI_ERROR env.findStatus = false)
    (h2 : EFI_ERROR (LoadFileToBuffer env.kernelLoad).status = false)
    (h3 : 0 < orchInitrdSize env useInitrd → EFI_ERROR env.installStatus = false)
    (h4 : EFI_ERROR env.loadImageStatus = false)
    (h5 : EFI_ERROR env.handleProtoStatus = false) :
    (LoadAndStartKernelFromAnyFs env cmdline useInitrd).startedImage = true ∧
    (LoadAndStartKernelFromAnyFs env cmdline useInitrd).status
      = env.startImageStatus ∧
    (∀ liOk loadOptions loadOptionsSize,
      UefiMain liOk loadOptions loadOptionsSize env
        = (LoadAndStartKernelFromAnyFs env
            (if IsNetworkBoot liOk loadOptions loadOptionsSize
             then KernelCmdlineNfs else KernelCmdline)
            (if IsNetworkBoot liOk loadOptions loadOptionsSize
             then false else true)).status) := by
  obtain ⟨w, r, c, heq⟩ := orch_reach_start env cmdline useInitrd h1 h2 h3
  refine ⟨?_, ?_, ?_⟩
  · rw [heq]
    simp [orchStartPhase, h4, h5]
  · rw [heq]
    simp [orchStartPhase, h4, h5]
  · intro liOk loadOptions loadOptionsSize
    rfl

/-- Closed witness for the amended C9: a `StartImage` that comes back with
`EFI_ABORTED` has that very status returned by the loader. -/
theorem C9_startimage_passthrough_witness :
    (LoadAndStartKernelFromAnyFs
        ⟨.Success, ⟨.Success, .BufferTooSmall, true, .Success, true, ⟨[1], .Success⟩⟩,
         ⟨.Success, .BufferTooSmall, true, .Success, true, ⟨[], .Success⟩⟩,
         4096, .Success, .Success, .Success, .Aborted⟩
        KernelCmdline false).startedImage = true ∧
    (LoadAndStartKernelFromAnyFs
        ⟨.Success, ⟨.Success, .BufferTooSmall, true, .Success, true, ⟨[1], .Success⟩⟩,
         ⟨.Success, .BufferTooSmall, true, .Success, true, ⟨[], .Success⟩⟩,
         4096, .Success, .Success, .Success, .Aborted⟩
        KernelCmdline false).status = .Aborted := by
  have h := C9_startimage_passthrough
    ⟨.Success, ⟨.Success, .BufferTooSmall, true, .Success, true, ⟨[1], .Success⟩⟩,
     ⟨.Success, .BufferTooSmall, true, .Success, true, ⟨[], .Success⟩⟩,
     4096, .Success, .Success, .Success, .Aborted⟩
    KernelCmdline false rfl rfl (fun hc => absurd hc (by decide)) rfl rfl
  exact ⟨h.1, h.2.1⟩

/-- Closed witness for C10 at a concrete not-found query. -/
theorem C10_provider_frame_witness :
    (InitrdLoadFile ⟨none, 0⟩ (some 5) (some [1, 2])).buffer = some [1, 2] ∧
    (InitrdLoadFile ⟨none, 0⟩ (some 5) (some [1, 2])).bufferSize = some 5 :=
  ⟨(C10_provider_frame ⟨none, 0⟩ (some 5) (some [1, 2])).1 (by decide),
   (C10_provider_frame ⟨none, 0⟩ (some 5) (some [1, 2])).2 (Or.inr (by decide))⟩

end Uefi2
